import Mathlib

/-!
Verification development for the `devin-demo` backend
(`src/backend/app/main.py`).

The file shallowly embeds the two endpoint bodies:

* `url_to_text` — the extraction fallback pipeline: a chain of four
  content providers (trafilatura, newspaper, readability, playwright)
  with a length-based quality gate, followed by a text-cleaning pass.
  Each provider is an external library call; its behaviour on a given
  URL is modelled by an outcome record supplied as an explicit
  parameter, and a raised exception inside a provider is modelled by a
  `raises` flag (the failure is modelled as occurring at the provider's
  initial fetch call, before any state update).
* `condense_text` — the condensation endpoint, which delegates the
  actual condensation to an external chat-completion model; the
  model's reply is likewise an explicit string parameter.

String primitives (`str.strip`, `str.split('\n')`, `'\n'.join`,
`re.sub`, `re.match`) are re-implemented over `List Char` following
Python's semantics on the ASCII fragment (the character classes `\d`,
`\w`, `\s` are modelled by their ASCII meaning).
-/

set_option maxRecDepth 4000
set_option linter.unusedVariables false

deriving instance DecidableEq for Except

/-! ## Python string primitives -/

/-- Python whitespace for `str.strip()` (ASCII fragment). -/
def isPySpace (c : Char) : Bool :=
  c = ' ' || c = '\t' || c = '\n' || c = '\r' || c = '\x0b' || c = '\x0c'

/-- Python `str.strip()`: drop leading and trailing whitespace. -/
def pyStrip (s : String) : String :=
  ⟨((s.data.dropWhile isPySpace).reverse.dropWhile isPySpace).reverse⟩

/-- Python `\w` word characters (ASCII fragment): alphanumeric or underscore. -/
def isPyWordChar (c : Char) : Bool :=
  c.isAlphanum || c = '_'

/-- Python `str.split('\n')` on a character list. -/
def splitOnNl : List Char → List (List Char)
  | [] => [[]]
  | c :: rest =>
    let r := splitOnNl rest
    if c = '\n' then [] :: r
    else (c :: r.headD []) :: r.tail

/-- Python `'\n'.join` on a character-list list. -/
def joinNl : List (List Char) → List Char
  | [] => []
  | [l] => l
  | l :: ls => l ++ '\n' :: joinNl ls

/-! ## The cleaning pass (main.py lines 175–202) -/

/-- `re.sub(r'\n{3,}', '\n\n', text)`: a run of three or more newlines is
replaced by exactly two; shorter runs are kept.  The accumulator counts
the newlines already seen in the current run. -/
def collapseGo : Nat → List Char → List Char
  | _, [] => []
  | k, c :: rest =>
    if c = '\n' then
      (if k < 2 then ['\n'] else []) ++ collapseGo (k + 1) rest
    else
      c :: collapseGo 0 rest

/-- Collapse 3+ consecutive newlines to exactly 2. -/
def collapseNewlines (s : String) : String :=
  ⟨collapseGo 0 s.data⟩

/-- The line filter of main.py line 178–179: keep a line iff
`len(line.strip()) > 1 and not re.match(r'^[\d\W]+$', line.strip())`.
The regex matches iff the stripped line is nonempty and every character
is a digit or a non-word character. -/
def keepLine (l : String) : Bool :=
  1 < (pyStrip l).length &&
    !((pyStrip l).data.all fun c => c.isDigit || !isPyWordChar c)

/-- `'\n'.join([line for line in text.split('\n') if ...])`. -/
def cleanLines (s : String) : String :=
  ⟨joinNl (((splitOnNl s.data).map (⟨·⟩ : List Char → String)).filter keepLine
      |>.map String.data)⟩

/-- One UI-boilerplate pattern of main.py lines 181–199: a literal phrase
(matched case-insensitively) followed by `wild` arbitrary non-newline
characters (`.` in the `Loading...` pattern) and then the optional
single whitespace of the appended `[\s\n]?`. -/
structure UiPattern where
  lit : String
  wild : Nat
deriving DecidableEq

/-- The `common_ui_patterns` list, in source order.  `r'Loading...'`'s
three dots are regex wildcards, hence `wild := 3`. -/
def common_ui_patterns : List UiPattern :=
  [⟨"Cookie Policy", 0⟩, ⟨"Accept Cookies", 0⟩, ⟨"Privacy Policy", 0⟩,
   ⟨"Terms of Service", 0⟩, ⟨"Sign up", 0⟩, ⟨"Log in", 0⟩,
   ⟨"Subscribe", 0⟩, ⟨"Newsletter", 0⟩, ⟨"Share", 0⟩, ⟨"Follow us", 0⟩,
   ⟨"Comments", 0⟩, ⟨"Related Articles", 0⟩, ⟨"Read more", 0⟩,
   ⟨"Loading", 3⟩, ⟨"Search", 0⟩, ⟨"Menu", 0⟩, ⟨"Navigation", 0⟩]

/-- Match a literal, case-insensitively (the `(?i)` flag); returns the
remainder on success. -/
def matchLit : List Char → List Char → Option (List Char)
  | [], cs => some cs
  | _ :: _, [] => none
  | l :: ls, c :: cs => if c.toLower = l.toLower then matchLit ls cs else none

/-- Match `n` wildcard characters (regex `.`, which excludes `'\n'`). -/
def matchWild : Nat → List Char → Option (List Char)
  | 0, cs => some cs
  | _ + 1, [] => none
  | n + 1, c :: cs => if c = '\n' then none else matchWild n cs

/-- The greedy optional trailing whitespace `[\s\n]?`. -/
def matchOptSpace : List Char → List Char
  | [] => []
  | c :: cs => if isPySpace c then cs else c :: cs

/-- Try to match one UI pattern at the head of `cs`. -/
def matchUiPattern (p : UiPattern) (cs : List Char) : Option (List Char) :=
  (matchLit p.lit.data cs).bind fun r₁ =>
    (matchWild p.wild r₁).map matchOptSpace

/-- `re.sub(pattern, '', text)`: scan left to right, removing every
non-overlapping match and continuing after its end.  The fuel argument
(instantiated with the list length, which bounds the number of steps
because every step consumes at least one character) makes the recursion
structural. -/
def subUiPattern (p : UiPattern) : Nat → List Char → List Char
  | _, [] => []
  | 0, cs => cs
  | fuel + 1, c :: rest =>
    match matchUiPattern p (c :: rest) with
    | some rem => subUiPattern p fuel rem
    | none => c :: subUiPattern p fuel rest

/-- The loop `for pattern in common_ui_patterns: text = re.sub(...)`. -/
def removeUiPhrases (s : String) : String :=
  ⟨common_ui_patterns.foldl (fun cs p => subUiPattern p cs.length cs) s.data⟩

/-- The whole post-acceptance cleaning pass of main.py lines 175–202
(applied whenever the chain produced a nonempty text, whichever
provider supplied it). -/
def cleanText (s : String) : String :=
  removeUiPhrases (cleanLines (collapseNewlines s))

example : pyStrip "  ab c \n" = "ab c" := by decide
example : collapseNewlines "a\n\n\n\nb\n\nc" = "a\n\nb\n\nc" := by decide
example : cleanLines "Real line\n123\n!!\nAnother real line" =
    "Real line\nAnother real line" := by decide
example : removeUiPhrases "xSubscribe yLoading!!! z" = "xyz" := by decide

/-! ## Data model of the extraction endpoint -/

/-- The response model `UrlToTextResponse` of main.py. -/
structure UrlToTextResponse where
  title : String
  text : String
  original_url : String
deriving DecidableEq

/-- Sentinel body installed when no provider produced any text
(main.py line 204). -/
def sentinelBody : String :=
  "Could not extract readable content from this URL."

/-- Outcome of the trafilatura provider (main.py lines 62–73): whether
`fetch_url` returned a truthy download, what `extract` returned
(`""` models both `None` and the empty string, which Python's
truthiness tests treat alike), and the metadata title.  `raises`
models an exception escaping one of these calls — this provider is the
only one not wrapped in its own `try/except`, so such an exception
propagates to the endpoint's outer handler; `errMsg` is its `str(e)`. -/
structure TrafOutcome where
  raises : Bool
  errMsg : String
  downloaded : Bool
  result : String
  metaTitle : String
deriving DecidableEq

/-- Outcome of the newspaper provider (main.py lines 76–87):
`article.title` and `article.text` after `download()`/`parse()`;
`raises` models an exception at the initial `download()` call, which
the provider's own `except Exception: pass` swallows. -/
structure NewsOutcome where
  raises : Bool
  title : String
  text : String
deriving DecidableEq

/-- Outcome of the readability provider (main.py lines 90–105):
`doc.title()`, whether `doc.summary()` was truthy, and the text
`BeautifulSoup(...).get_text(...)` produced; `raises` models an
exception at the initial `requests.get`, swallowed by the provider's
`except`. -/
structure ReadOutcome where
  raises : Bool
  docTitle : String
  readableHtml : Bool
  bodyText : String
deriving DecidableEq

/-- Outcome of the playwright provider (main.py lines 108–173): the
page title, the `inner_text` of each of the eleven content selectors
(`none` when the selector matched no element or its query raised, which
the inner `except ...: continue` swallows), the paragraph texts of the
`"p"` fallback, and the `body` text of the last fallback; `raises`
models an exception at browser launch, swallowed by the provider's
`except`. -/
structure PlayOutcome where
  raises : Bool
  pageTitle : String
  selectorTexts : List (Option String)
  paragraphTexts : List String
  bodyText : Option String
deriving DecidableEq

/-- One full configuration of external-world behaviour for a request:
what each provider would yield for the requested URL. -/
structure ExtractionConfig where
  traf : TrafOutcome
  news : NewsOutcome
  read : ReadOutcome
  play : PlayOutcome
deriving DecidableEq

/-- The two mutable locals of the endpoint, `title` and `text`
(main.py lines 55–56). -/
structure ChainState where
  title : String
  text : String
deriving DecidableEq

/-- Initial state: `title = "Extracted Content"`, `text = ""`. -/
def initState : ChainState :=
  ⟨"Extracted Content", ""⟩

/-- The quality gate of the trafilatura provider (main.py line 69):
`result and len(result.strip()) > 100`, under `if downloaded`. -/
def trafAccepts (o : TrafOutcome) : Bool :=
  o.downloaded && o.result != "" && decide (100 < (pyStrip o.result).length)

/-- Lines 62–73: on acceptance, take the metadata title when truthy and
install the body.  (The `raises` case never reaches this step: the
exception propagates out of the endpoint, see `url_to_text`.) -/
def trafStep (o : TrafOutcome) (s : ChainState) : ChainState :=
  if trafAccepts o then
    ⟨if o.metaTitle != "" then o.metaTitle else s.title, o.result⟩
  else s

/-- The move-on guard of lines 75, 89 and 107:
`if not text or len(text.strip()) < 100`.  Note the strict `< 100`
(not `<= 100`): a text of trimmed length exactly 100 stops the chain. -/
def needNext (s : ChainState) : Bool :=
  s.text == "" || decide ((pyStrip s.text).length < 100)

/-- The quality gate of the newspaper provider (main.py line 84):
`article.text and len(article.text.strip()) > 100`. -/
def newsGate (o : NewsOutcome) : Bool :=
  o.text != "" && decide (100 < (pyStrip o.text).length)

/-- Lines 75–87: when the guard allows it and the attempt does not
raise, always take a truthy title, and take the body only past the
`> 100` gate. -/
def newsStep (o : NewsOutcome) (s : ChainState) : ChainState :=
  if needNext s && !o.raises then
    ⟨if o.title != "" then o.title else s.title,
     if newsGate o then o.text else s.text⟩
  else s

/-- Lines 89–105: when the guard allows it and the attempt does not
raise, replace a missing or sentinel title by `doc.title()`, and when
`doc.summary()` is truthy install `soup.get_text(...)` as the body —
with no length gate at all. -/
def readStep (o : ReadOutcome) (s : ChainState) : ChainState :=
  if needNext s && !o.raises then
    ⟨if s.title == "" || s.title == "Extracted Content" then o.docTitle
      else s.title,
     if o.readableHtml then o.bodyText else s.text⟩
  else s

/-- The selector loop of lines 141–149: `content_text` is overwritten by
every selector that matched an element, and the loop breaks on the
first text passing the `> 100` trimmed-length gate. -/
def selectorLoop : List (Option String) → String → String
  | [], acc => acc
  | none :: rest, acc => selectorLoop rest acc
  | some t :: rest, _ =>
    if t != "" && decide (100 < (pyStrip t).length) then t
    else selectorLoop rest t

/-- Python `'\n\n'.join` on a character-list list. -/
def joinBlankLine : List (List Char) → List Char
  | [] => []
  | [l] => l
  | l :: ls => l ++ '\n' :: '\n' :: joinBlankLine ls

/-- The paragraph fallback of lines 151–160: strip each paragraph text,
keep the truthy ones longer than 20 trimmed characters, join with
`"\n\n"`. -/
def paragraphFallback (ps : List String) : String :=
  ⟨joinBlankLine ((ps.filter fun p => p != "" && decide (20 < (pyStrip p).length))
      |>.map fun p => (pyStrip p).data)⟩

/-- Lines 107–173: when the guard allows it and the attempt does not
raise, take a truthy page title, then run the three-stage internal
fallback (selectors, then paragraph concatenation, then full body
text), and install the final candidate only past the `> 100`
trimmed-length gate of lines 169–170. -/
def playStep (o : PlayOutcome) (s : ChainState) : ChainState :=
  if needNext s && !o.raises then
    let ct1 := selectorLoop o.selectorTexts ""
    let ct2 :=
      if ct1 == "" || decide ((pyStrip ct1).length < 100) then
        paragraphFallback o.paragraphTexts
      else ct1
    let ct3 :=
      if ct2 == "" || decide ((pyStrip ct2).length < 100) then
        match o.bodyText with
        | some b => b
        | none => ct2
      else ct2
    ⟨if o.pageTitle != "" then o.pageTitle else s.title,
     if ct3 != "" && decide (100 < (pyStrip ct3).length) then ct3 else s.text⟩
  else s

/-- State after the trafilatura attempt. -/
def stateAfterTraf (cfg : ExtractionConfig) : ChainState :=
  trafStep cfg.traf initState

/-- State after the newspaper attempt. -/
def stateAfterNews (cfg : ExtractionConfig) : ChainState :=
  newsStep cfg.news (stateAfterTraf cfg)

/-- State after the readability attempt. -/
def stateAfterRead (cfg : ExtractionConfig) : ChainState :=
  readStep cfg.read (stateAfterNews cfg)

/-- State after the playwright attempt: the final (pre-cleaning) chain
state.  The chain is, by construction, the sequential composition
trafilatura → newspaper → readability → playwright. -/
def chainState (cfg : ExtractionConfig) : ChainState :=
  playStep cfg.play (stateAfterRead cfg)

/-- Whether the newspaper provider's block is entered (the guard of
main.py line 75 on the state left by trafilatura). -/
def runsNews (cfg : ExtractionConfig) : Bool :=
  needNext (stateAfterTraf cfg)

/-- Whether the readability provider's block is entered (the guard of
main.py line 89). -/
def runsRead (cfg : ExtractionConfig) : Bool :=
  needNext (stateAfterNews cfg)

/-- Whether the playwright (headless browser) block is entered (the
guard of main.py line 107). -/
def runsPlay (cfg : ExtractionConfig) : Bool :=
  needNext (stateAfterRead cfg)

/-- Whether the readability provider installed its body into `text`
(main.py line 103): its block ran, did not raise, and `doc.summary()`
was truthy.  No length condition is involved. -/
def readInstalls (cfg : ExtractionConfig) : Bool :=
  runsRead cfg && !cfg.read.raises && cfg.read.readableHtml

/-- The whole `/api/url-to-text` endpoint body (main.py lines 46–212)
for one request, as a function of the URL and of the behaviour of the
external world `cfg`.  An exception in the unguarded trafilatura calls
reaches the outer `except` and becomes an HTTP 500; otherwise the chain
runs, the cleaning pass is applied to a truthy final text, and an empty
final text is replaced by the sentinel body. -/
def url_to_text (url : String) (cfg : ExtractionConfig) :
    Except (Nat × String) UrlToTextResponse :=
  if cfg.traf.raises then
    .error (500, "Error processing URL: " ++ cfg.traf.errMsg)
  else
    let s := chainState cfg
    .ok ⟨s.title, if s.text != "" then cleanText s.text else sentinelBody, url⟩

/-! ## Data model of the condensation endpoint -/

/-- The response model `TextCondensationResponse` of main.py.
`percentage_achieved` is a Python float; it is embedded as the exact
rational the source expression denotes. -/
structure TextCondensationResponse where
  original_length : Nat
  condensed_length : Nat
  percentage_achieved : Rat
  condensed_text : String
deriving DecidableEq

/-- Detail string of the HTTP 500 raised when `OPENAI_API_KEY` is
missing (main.py lines 226–229).  The inner `HTTPException` is caught
by the endpoint's own `except Exception` (it is an `Exception`
subclass) and re-raised wrapped in `"Error condensing text: "`;
`str()` of a Starlette `HTTPException` is `"<status>: <detail>"`. -/
def missingKeyDetail : String :=
  "Error condensing text: 500: OpenAI API key not found. Please set the OPENAI_API_KEY environment variable."

/-- The whole `/api/condense-text` endpoint body (main.py lines
214–282).  `apiKey` is `os.environ.get("OPENAI_API_KEY")`; `llmContent`
is the `response.choices[0].message.content` produced by the external
chat-completion call (the prompts sent to it are built from `text`,
`percentage` and `preserve_headings`, but the reply itself is external
input).  With no key the endpoint raises before any other work; with a
key the returned `condensed_text` is the stripped model reply and the
metrics are computed from it. -/
def condense_text (apiKey : Option String) (text : String)
    (percentage : Nat) (preserve_headings : Bool) (llmContent : String) :
    Except (Nat × String) TextCondensationResponse :=
  match apiKey with
  | none => .error (500, missingKeyDetail)
  | some k =>
    if k = "" then .error (500, missingKeyDetail)
    else
      let original_length := text.length
      let condensed := pyStrip llmContent
      .ok ⟨original_length, condensed.length,
        if 0 < original_length then
          (condensed.length : Rat) / (original_length : Rat) * 100
        else 0,
        condensed⟩

/-- Projection used to state concrete facts about an endpoint result
without forcing evaluation of the rational metric field: the
`condensed_text` of a successful result. -/
def condensedTextOf (e : Except (Nat × String) TextCondensationResponse) :
    Option String :=
  match e with
  | .ok r => some r.condensed_text
  | .error _ => none

example : condensedTextOf (condense_text (some "sk") "Hello world." 50 true
    " Alpha. ") = some "Alpha." := by decide
example : url_to_text "http://x" ⟨⟨false, "", false, "", ""⟩,
    ⟨false, "", ""⟩, ⟨true, "", false, ""⟩, ⟨false, "", [], [], none⟩⟩ =
    .ok ⟨"Extracted Content", sentinelBody, "http://x"⟩ := by decide

/-! ## Claims about the condensation endpoint -/

/-- C10: with `OPENAI_API_KEY` unset, every `CondenseText` call fails
with an HTTP 500 carrying a human-readable message, before any
condensation work (the result does not depend on the model reply), and
no `CondensationResult` is produced. -/
theorem c10_missing_key_errors (text : String) (percentage : Nat)
    (preserve_headings : Bool) (llmContent : String) :
    condense_text none text percentage preserve_headings llmContent =
      .error (500, missingKeyDetail) :=
  rfl

/-- C9: for every `CondenseText` call (with a key present, so that a
result is produced), `original_length` is the character count of the
input, `condensed_length` is the character count of `condensed_text`,
and `percentage_achieved` is `condensed_length / original_length × 100`
— except that an empty input yields exactly `0`, with no division
error. -/
theorem c9_condensation_metrics (k text : String) (percentage : Nat)
    (preserve_headings : Bool) (llmContent : String) (h : k ≠ "") :
    ∃ r, condense_text (some k) text percentage preserve_headings llmContent =
        .ok r ∧
      r.original_length = text.length ∧
      r.condensed_length = r.condensed_text.length ∧
      (0 < text.length →
        r.percentage_achieved =
          (r.condensed_length : Rat) / (r.original_length : Rat) * 100) ∧
      (text.length = 0 → r.percentage_achieved = 0) := by
  refine ⟨⟨text.length, (pyStrip llmContent).length,
    if 0 < text.length then
      ((pyStrip llmContent).length : Rat) / (text.length : Rat) * 100
    else 0, pyStrip llmContent⟩, ?_, rfl, rfl, ?_, ?_⟩
  · simp [condense_text, h]
  · intro hp
    simp [hp]
  · intro hz
    simp [hz]

/-- Witness for C9 at a concrete input (empty text, so the zero branch
of the metric is also exercised). -/
theorem c9_condensation_metrics_witness :
    ("sk" : String) ≠ "" ∧
    ∃ r, condense_text (some "sk") "" 50 true " Hi. " = .ok r ∧
      r.original_length = ("" : String).length ∧
      r.condensed_length = r.condensed_text.length ∧
      (0 < ("" : String).length →
        r.percentage_achieved =
          (r.condensed_length : Rat) / (r.original_length : Rat) * 100) ∧
      (("" : String).length = 0 → r.percentage_achieved = 0) :=
  ⟨by decide, c9_condensation_metrics "sk" "" 50 true " Hi. " (by decide)⟩

/-- C1 fails on the code: the endpoint's `condensed_text` is whatever
the external model replied (stripped), so two invocations with the same
`(text, percentage, preserve_headings)` arguments can disagree, and the
output need not consist of sentences of the input — here the output is
not even a substring of the input. -/
theorem c1_counterexample :
    condensedTextOf
        (condense_text (some "sk") "Hello world." 50 true "Alpha.") ≠
      condensedTextOf
        (condense_text (some "sk") "Hello world." 50 true "Beta.") ∧
    condensedTextOf
        (condense_text (some "sk") "Hello world." 50 true "Goodbye.") =
      some "Goodbye." ∧
    ¬ ("Goodbye.".data <:+: "Hello world.".data) := by
  refine ⟨by decide, by decide, by decide⟩

/-- C1 amended: `condensed_text` is the external model's reply with
surrounding whitespace stripped, and the result is determined by the
arguments together with that reply — so determinism and extractiveness
hold exactly to the extent the external model provides them, and are
not guaranteed by this code. -/
theorem c1_amended_output_is_model_reply (k text : String)
    (percentage : Nat) (preserve_headings : Bool) (llmContent : String)
    (h : k ≠ "") :
    ∃ r, condense_text (some k) text percentage preserve_headings llmContent =
        .ok r ∧
      r.condensed_text = pyStrip llmContent ∧
      ∀ llmContent', pyStrip llmContent' = pyStrip llmContent →
        condense_text (some k) text percentage preserve_headings llmContent' =
          condense_text (some k) text percentage preserve_headings
            llmContent := by
  refine ⟨⟨text.length, (pyStrip llmContent).length,
    if 0 < text.length then
      ((pyStrip llmContent).length : Rat) / (text.length : Rat) * 100
    else 0, pyStrip llmContent⟩, ?_, rfl, ?_⟩
  · simp [condense_text, h]
  · intro llm' hs
    simp [condense_text, h, hs]

/-- Witness for the amended C1 at a concrete input. -/
theorem c1_amended_output_is_model_reply_witness :
    ("sk" : String) ≠ "" ∧
    ∃ r, condense_text (some "sk") "T." 50 true " A. " = .ok r ∧
      r.condensed_text = pyStrip " A. " :=
  ⟨by decide, by
    obtain ⟨r, h1, h2, _⟩ :=
      c1_amended_output_is_model_reply "sk" "T." 50 true " A. " (by decide)
    exact ⟨r, h1, h2⟩⟩

/-- C6 fails on the code: the endpoint hands the text to the external
model, so a two-sentence paragraph is not guaranteed to reappear — here
at `percentage = 90` the output neither equals the input nor contains
its (unique, two-sentence) paragraph. -/
theorem c6_counterexample :
    condensedTextOf (condense_text (some "sk") "One. Two." 90 true "Nope") =
      some "Nope" ∧
    ("Nope" : String) ≠ "One. Two." ∧
    ¬ ("One. Two.".data <:+: "Nope".data) := by
  refine ⟨by decide, by decide, by decide⟩

/-- C6 amended: a paragraph of the input (in particular a short one) is
reproduced verbatim exactly when the external model's stripped reply
reproduces it; the code itself enforces no verbatim preservation.  For
the whole-input case: the output equals the input iff the stripped
model reply equals the input. -/
theorem c6_amended_verbatim_iff_model (k text : String) (percentage : Nat)
    (preserve_headings : Bool) (llmContent : String) (h : k ≠ "") :
    ∃ r, condense_text (some k) text percentage preserve_headings llmContent =
        .ok r ∧
      (r.condensed_text = text ↔ pyStrip llmContent = text) := by
  refine ⟨⟨text.length, (pyStrip llmContent).length,
    if 0 < text.length then
      ((pyStrip llmContent).length : Rat) / (text.length : Rat) * 100
    else 0, pyStrip llmContent⟩, ?_, Iff.rfl⟩
  simp [condense_text, h]

/-- Witness for the amended C6 at a concrete input: a two-sentence
paragraph condensed at `percentage = 90`, with the model replying
verbatim. -/
theorem c6_amended_verbatim_iff_model_witness :
    ("sk" : String) ≠ "" ∧
    ∃ r, condense_text (some "sk") "One. Two." 90 true "One. Two." = .ok r ∧
      (r.condensed_text = "One. Two." ↔ pyStrip "One. Two." = "One. Two.") :=
  ⟨by decide, c6_amended_verbatim_iff_model "sk" "One. Two." 90 true
    "One. Two." (by decide)⟩

/-! ## Claims about the extraction endpoint -/

/-- The text invariant the three gated providers maintain: the `text`
local is either still empty or was installed past the `> 100`
trimmed-length gate. -/
def gatedText (s : ChainState) : Prop :=
  s.text = "" ∨ 100 < (pyStrip s.text).length

theorem gatedText_init : gatedText initState :=
  Or.inl rfl

theorem trafStep_gatedText (o : TrafOutcome) (s : ChainState)
    (h : gatedText s) : gatedText (trafStep o s) := by
  unfold trafStep
  by_cases ha : trafAccepts o = true
  · simp only [ha, if_true]
    simp only [trafAccepts, Bool.and_eq_true, decide_eq_true_eq] at ha
    exact Or.inr ha.2
  · simp only [ha, if_false]
    exact h

theorem newsStep_gatedText (o : NewsOutcome) (s : ChainState)
    (h : gatedText s) : gatedText (newsStep o s) := by
  unfold newsStep
  by_cases hr : (needNext s && !o.raises) = true
  · simp only [hr, if_true]
    by_cases hg : newsGate o = true
    · simp only [hg, if_true]
      simp only [newsGate, Bool.and_eq_true, decide_eq_true_eq] at hg
      exact Or.inr hg.2
    · simp only [hg, if_false]
      exact h
  · simp only [hr, if_false]
    exact h

theorem playStep_gatedText (o : PlayOutcome) (s : ChainState)
    (h : gatedText s) : gatedText (playStep o s) := by
  unfold playStep
  by_cases hr : (needNext s && !o.raises) = true
  · simp only [hr, if_true]
    set ct1 := selectorLoop o.selectorTexts ""
    set ct2 := if ct1 == "" || decide ((pyStrip ct1).length < 100) then
      paragraphFallback o.paragraphTexts else ct1
    set ct3 := if ct2 == "" || decide ((pyStrip ct2).length < 100) then
      (match o.bodyText with | some b => b | none => ct2) else ct2
    by_cases hg : (ct3 != "" && decide (100 < (pyStrip ct3).length)) = true
    · simp only [hg, if_true]
      simp only [Bool.and_eq_true, decide_eq_true_eq] at hg
      exact Or.inr hg.2
    · simp only [hg, if_false]
      exact h
  · simp only [hr, if_false]
    exact h

theorem readStep_no_install_gatedText (o : ReadOutcome) (s : ChainState)
    (h : gatedText s)
    (hni : ¬((needNext s && !o.raises) = true ∧ o.readableHtml = true)) :
    gatedText (readStep o s) := by
  unfold readStep
  by_cases hr : (needNext s && !o.raises) = true
  · simp only [hr, if_true]
    have hh : o.readableHtml = false := by
      rcases Bool.eq_false_or_eq_true o.readableHtml with hb | hb
      · exact absurd ⟨hr, hb⟩ hni
      · exact hb
    simp only [hh, if_false]
    exact h
  · simp only [hr, if_false]
    exact h

/-- The guard after the newspaper attempt, as a function of the guard
before it: newspaper stops the chain exactly when it ran without
raising and passed its `> 100` gate. -/
theorem needNext_newsStep (o : NewsOutcome) (s : ChainState) :
    needNext (newsStep o s) = (needNext s && (o.raises || !newsGate o)) := by
  unfold newsStep
  cases hn : needNext s with
  | false => simp [hn]
  | true =>
    cases hr : o.raises with
    | true => simp [hn, hr]
    | false =>
      cases hg : newsGate o with
      | false =>
        simp only [hn, hr, hg, Bool.not_false, Bool.and_true, if_true,
          Bool.or_false, Bool.not_true, Bool.false_or, if_false]
        simpa [needNext] using hn
      | true =>
        simp only [hn, hr, hg, Bool.not_false, Bool.and_true, if_true,
          Bool.not_true, Bool.or_false, Bool.and_false]
        have hg' := hg
        simp only [newsGate, Bool.and_eq_true, bne_iff_ne, ne_eq,
          decide_eq_true_eq] at hg'
        simp [needNext, hg'.1, Nat.not_lt.mpr (Nat.le_of_lt hg'.2)]

/-- The guard after the readability attempt: readability stops the
chain exactly when it ran without raising, `doc.summary()` was truthy,
and the installed body was nonempty with trimmed length at least 100 —
not necessarily more than 100. -/
theorem needNext_readStep (o : ReadOutcome) (s : ChainState) :
    needNext (readStep o s) =
      (needNext s && (o.raises || !o.readableHtml || o.bodyText == "" ||
        decide ((pyStrip o.bodyText).length < 100))) := by
  unfold readStep
  cases hn : needNext s with
  | false => simp [hn]
  | true =>
    cases hr : o.raises with
    | true => simp [hn, hr]
    | false =>
      cases hh : o.readableHtml with
      | false =>
        simp only [hn, hr, hh, Bool.not_false, Bool.and_true, if_true,
          Bool.not_true, Bool.false_or, Bool.true_or, Bool.true_and, if_false]
        simpa [needNext] using hn
      | true =>
        simp only [hn, hr, hh, Bool.not_false, Bool.and_true, if_true,
          Bool.not_true, Bool.false_or, Bool.true_and]
        simp [needNext]

/-- The newspaper attempt runs iff trafilatura did not accept. -/
theorem runsNews_eq (cfg : ExtractionConfig) :
    runsNews cfg = !trafAccepts cfg.traf := by
  unfold runsNews stateAfterTraf trafStep
  cases hb : trafAccepts cfg.traf with
  | false => simp [hb, initState, needNext]
  | true =>
    simp only [hb, if_true, Bool.not_true]
    simp only [trafAccepts, Bool.and_eq_true, bne_iff_ne, ne_eq,
      decide_eq_true_eq] at hb
    simp [needNext, hb.1.2, Nat.not_lt.mpr (Nat.le_of_lt hb.2)]

/-- The readability attempt runs iff trafilatura did not accept and the
newspaper attempt raised or failed its gate. -/
theorem runsRead_eq (cfg : ExtractionConfig) :
    runsRead cfg =
      (!trafAccepts cfg.traf && (cfg.news.raises || !newsGate cfg.news)) := by
  show needNext (newsStep cfg.news (stateAfterTraf cfg)) = _
  rw [needNext_newsStep, show needNext (stateAfterTraf cfg) = runsNews cfg
    from rfl, runsNews_eq]

/-- The playwright attempt runs iff the readability attempt ran and
raised, found no summary, or installed an empty or sub-100-character
body. -/
theorem runsPlay_eq (cfg : ExtractionConfig) :
    runsPlay cfg =
      (runsRead cfg && (cfg.read.raises || !cfg.read.readableHtml ||
        cfg.read.bodyText == "" ||
        decide ((pyStrip cfg.read.bodyText).length < 100))) := by
  show needNext (readStep cfg.read (stateAfterNews cfg)) = _
  rw [needNext_readStep]
  rfl

/-- C7: the providers are attempted in the fixed order trafilatura →
newspaper → readability → playwright (`chainState` is by construction
the sequential composition of the four steps), each later block is
entered only when every earlier provider failed the strict `> 100`
quality gate, the first accepted body short-circuits the rest, and the
browser never runs when an earlier provider's body was accepted. -/
theorem c7_provider_order (cfg : ExtractionConfig) :
    runsNews cfg = !trafAccepts cfg.traf ∧
    runsRead cfg =
      (!trafAccepts cfg.traf && (cfg.news.raises || !newsGate cfg.news)) ∧
    runsPlay cfg =
      (runsRead cfg && (cfg.read.raises || !cfg.read.readableHtml ||
        cfg.read.bodyText == "" ||
        decide ((pyStrip cfg.read.bodyText).length < 100))) ∧
    (runsPlay cfg && trafAccepts cfg.traf) = false ∧
    (runsPlay cfg && (!cfg.news.raises && newsGate cfg.news &&
      runsNews cfg)) = false ∧
    (runsPlay cfg && (!cfg.read.raises && cfg.read.readableHtml &&
      decide (100 < (pyStrip cfg.read.bodyText).length))) = false ∧
    (runsRead cfg && !runsNews cfg) = false ∧
    (runsPlay cfg && !runsRead cfg) = false := by
  refine ⟨runsNews_eq cfg, runsRead_eq cfg, runsPlay_eq cfg, ?_, ?_, ?_, ?_, ?_⟩
  · rw [runsPlay_eq, runsRead_eq]
    cases trafAccepts cfg.traf <;> simp
  · rw [runsPlay_eq, runsRead_eq, runsNews_eq]
    cases trafAccepts cfg.traf <;> cases cfg.news.raises <;>
      cases newsGate cfg.news <;> simp
  · rw [runsPlay_eq]
    cases runsRead cfg <;> cases cfg.read.raises <;>
      cases cfg.read.readableHtml <;> simp
    by_cases hb : cfg.read.bodyText = ""
    · simp [hb, pyStrip]
    · simp only [beq_eq_false_iff_ne, ne_eq, hb, not_false_iff,
        decide_eq_true_eq, Bool.false_or]
      by_cases hlt : (pyStrip cfg.read.bodyText).length < 100
      · simp [hlt]
        omega
      · simp [hlt]
  · rw [runsRead_eq, runsNews_eq]
    cases trafAccepts cfg.traf <;> simp
  · rw [runsPlay_eq]
    cases runsRead cfg <;> simp

/-- C2 fails on the code: the trafilatura calls (main.py lines 62–73)
are the only provider attempt not wrapped in its own `try/except`, so
an error raised there is not swallowed — it reaches the outer handler
and the endpoint throws an HTTP 500 instead of continuing the chain. -/
theorem c2_counterexample :
    url_to_text "http://x"
      ⟨⟨true, "network failure", false, "", ""⟩, ⟨false, "", ""⟩,
        ⟨true, "", false, ""⟩, ⟨false, "", [], [], none⟩⟩ =
      .error (500, "Error processing URL: network failure") := by
  decide

/-- C2 amended: an error raised inside the newspaper, readability or
playwright attempt is swallowed and leaves the chain state unchanged
(that provider contributes no result and the chain continues), and
whenever the trafilatura step does not raise the endpoint never throws:
it returns a result whose body is the sentinel message when no provider
installed any text. -/
theorem c2_amended_guarded_providers (url : String) (cfg : ExtractionConfig)
    (s : ChainState) (t₂ x₂ dt₃ bt₃ pt₄ : String) (rh₃ : Bool)
    (sel₄ : List (Option String)) (par₄ : List String)
    (bo₄ : Option String) (h : cfg.traf.raises = false) :
    newsStep ⟨true, t₂, x₂⟩ s = s ∧
    readStep ⟨true, dt₃, rh₃, bt₃⟩ s = s ∧
    playStep ⟨true, pt₄, sel₄, par₄, bo₄⟩ s = s ∧
    ∃ r, url_to_text url cfg = .ok r ∧
      ((chainState cfg).text = "" → r.text = sentinelBody) := by
  refine ⟨by simp [newsStep], by simp [readStep], by simp [playStep],
    ⟨(chainState cfg).title,
      if (chainState cfg).text != "" then cleanText (chainState cfg).text
      else sentinelBody, url⟩, ?_, ?_⟩
  · simp [url_to_text, h]
  · intro hz
    simp [hz]

/-- Witness for the amended C2 at a concrete input: a configuration in
which every guarded provider raises and trafilatura finds nothing. -/
theorem c2_amended_guarded_providers_witness :
    newsStep ⟨true, "t", "x"⟩ initState = initState ∧
    readStep ⟨true, "d", true, "b"⟩ initState = initState ∧
    playStep ⟨true, "p", [some "s"], ["q"], some "y"⟩ initState = initState ∧
    ∃ r, url_to_text "http://x"
        ⟨⟨false, "", false, "", ""⟩, ⟨true, "t", "x"⟩, ⟨true, "d", true, "b"⟩,
          ⟨true, "p", [some "s"], ["q"], some "y"⟩⟩ = .ok r ∧
      ((chainState ⟨⟨false, "", false, "", ""⟩, ⟨true, "t", "x"⟩,
        ⟨true, "d", true, "b"⟩,
        ⟨true, "p", [some "s"], ["q"], some "y"⟩⟩).text = "" →
        r.text = sentinelBody) :=
  c2_amended_guarded_providers "http://x"
    ⟨⟨false, "", false, "", ""⟩, ⟨true, "t", "x"⟩, ⟨true, "d", true, "b"⟩,
      ⟨true, "p", [some "s"], ["q"], some "y"⟩⟩
    initState "t" "x" "d" "b" "p" true [some "s"] ["q"] (some "y") rfl

/-- A concrete body of `n` letters, used to probe the length gates. -/
def bChars (n : Nat) : String :=
  ⟨List.replicate n 'b'⟩

/-- C3 fails on the code: the readability provider (main.py lines
89–105) installs its body with no length check at all, and the guard
before playwright is `len(text.strip()) < 100` — so a readability body
of exactly 100 trimmed characters is not rejected: the chain does not
move on (playwright is never entered) and the 100-character body is
returned. -/
theorem c3_counterexample :
    (pyStrip (bChars 100)).length = 100 ∧
    runsPlay ⟨⟨false, "", false, "", ""⟩, ⟨false, "", ""⟩,
      ⟨false, "", true, bChars 100⟩, ⟨false, "", [], [], none⟩⟩ = false ∧
    url_to_text "http://x"
      ⟨⟨false, "", false, "", ""⟩, ⟨false, "", ""⟩,
        ⟨false, "", true, bChars 100⟩, ⟨false, "", [], [], none⟩⟩ =
      .ok ⟨"", bChars 100, "http://x"⟩ := by
  refine ⟨by decide, by decide, by decide⟩

/-- C3 amended: the trafilatura, newspaper and playwright providers do
gate strictly at trimmed length `> 100` (a body of exactly 100 trimmed
characters is rejected and the chain moves on; 101 is accepted), but
the readability provider installs its body with no length gate, and the
chain moves past it only when the installed body's trimmed length is
strictly below 100 — so an exactly-100-character readability body is
kept and ends the chain. -/
theorem c3_amended_gates (b c mt ti dt : String) (s : ChainState)
    (h100 : (pyStrip b).length = 100) (h101 : (pyStrip c).length = 101)
    (hs : s.text = "") :
    (trafStep ⟨false, "", true, b, mt⟩ s).text = "" ∧
    (trafStep ⟨false, "", true, c, mt⟩ s).text = c ∧
    (newsStep ⟨false, ti, b⟩ s).text = "" ∧
    (newsStep ⟨false, ti, c⟩ s).text = c ∧
    (playStep ⟨false, "", [some b], [], none⟩ s).text = "" ∧
    (playStep ⟨false, "", [some c], [], none⟩ s).text = c ∧
    (readStep ⟨false, dt, true, b⟩ s).text = b ∧
    needNext (readStep ⟨false, dt, true, b⟩ s) = false := by
  have hb : b ≠ "" := by
    intro e
    rw [e] at h100
    simp [pyStrip] at h100
  have hc : c ≠ "" := by
    intro e
    rw [e] at h101
    simp [pyStrip] at h101
  have hnn : needNext s = true := by simp [needNext, hs]
  refine ⟨?_, ?_, ?_, ?_, ?_, ?_, ?_, ?_⟩
  · simp [trafStep, trafAccepts, h100, hs]
  · simp [trafStep, trafAccepts, h101, hc]
  · simp [newsStep, newsGate, h100, hnn, hs]
  · simp [newsStep, newsGate, h101, hnn, hc]
  · simp [playStep, selectorLoop, hnn, h100, hb, hs, paragraphFallback,
      joinBlankLine]
  · simp [playStep, selectorLoop, hnn, h101, hc]
  · simp [readStep, hnn, hs]
  · simp [needNext, readStep, hnn, hs, hb, h100]

/-- Witness for the amended C3 at concrete 100- and 101-character
bodies. -/
theorem c3_amended_gates_witness :
    (trafStep ⟨false, "", true, bChars 100, "m"⟩ initState).text = "" ∧
    (trafStep ⟨false, "", true, bChars 101, "m"⟩ initState).text =
      bChars 101 ∧
    (newsStep ⟨false, "t", bChars 100⟩ initState).text = "" ∧
    (newsStep ⟨false, "t", bChars 101⟩ initState).text = bChars 101 ∧
    (playStep ⟨false, "", [some (bChars 100)], [], none⟩ initState).text =
      "" ∧
    (playStep ⟨false, "", [some (bChars 101)], [], none⟩ initState).text =
      bChars 101 ∧
    (readStep ⟨false, "d", true, bChars 100⟩ initState).text = bChars 100 ∧
    needNext (readStep ⟨false, "d", true, bChars 100⟩ initState) = false :=
  c3_amended_gates (bChars 100) (bChars 101) "m" "t" "d" initState
    (by decide) (by decide) rfl

/-- C4 fails on the code: the readability provider can install a short
body (it has no length gate), and when playwright then fails the short
body survives cleaning and is returned — a 16-character non-sentinel
body. -/
theorem c4_counterexample :
    url_to_text "http://x"
      ⟨⟨false, "", false, "", ""⟩, ⟨false, "", ""⟩,
        ⟨false, "", true, "Short body text."⟩, ⟨true, "", [], [], none⟩⟩ =
      .ok ⟨"", "Short body text.", "http://x"⟩ ∧
    ("Short body text." : String) ≠ sentinelBody ∧
    ("Short body text." : String).length ≤ 100 := by
  refine ⟨by decide, by decide, by decide⟩

/-- C4 amended: the returned body is the sentinel exactly when no
provider installed any text, and otherwise it is the cleaned installed
text; the `> 100` trimmed-length guarantee holds for the installed text
(before cleaning) unless it was the readability provider that installed
it — readability performs no length check, so a short non-sentinel body
can be returned, and cleaning can further shorten any body. -/
theorem c4_amended_body_invariant (url : String) (cfg : ExtractionConfig)
    (h : cfg.traf.raises = false) :
    ∃ r, url_to_text url cfg = .ok r ∧
      ((chainState cfg).text = "" → r.text = sentinelBody) ∧
      ((chainState cfg).text ≠ "" →
        r.text = cleanText (chainState cfg).text) ∧
      ((chainState cfg).text = "" ∨ readInstalls cfg = true ∨
        100 < (pyStrip (chainState cfg).text).length) := by
  refine ⟨⟨(chainState cfg).title,
    if (chainState cfg).text != "" then cleanText (chainState cfg).text
    else sentinelBody, url⟩, by simp [url_to_text, h], ?_, ?_, ?_⟩
  · intro hz
    simp [hz]
  · intro hnz
    simp [hnz]
  · by_cases hi : readInstalls cfg = true
    · exact Or.inr (Or.inl hi)
    · have hg : gatedText (chainState cfg) := by
        apply playStep_gatedText
        apply readStep_no_install_gatedText
        · exact newsStep_gatedText _ _ (trafStep_gatedText _ _ gatedText_init)
        · intro ⟨h1, h2⟩
          apply hi
          simp only [readInstalls, Bool.and_eq_true]
          have h1' : (needNext (stateAfterNews cfg) &&
              !cfg.read.raises) = true := h1
          simp only [Bool.and_eq_true] at h1'
          exact ⟨⟨h1'.1, h1'.2⟩, h2⟩
      rcases hg with hg | hg
      · exact Or.inl hg
      · exact Or.inr (Or.inr hg)

/-- Witness for the amended C4 at a concrete input (trafilatura accepts
a long body). -/
theorem c4_amended_body_invariant_witness :
    ∃ r, url_to_text "http://x"
        ⟨⟨false, "", true, bChars 120, "m"⟩, ⟨false, "", ""⟩,
          ⟨false, "", false, ""⟩, ⟨false, "", [], [], none⟩⟩ = .ok r ∧
      ((chainState ⟨⟨false, "", true, bChars 120, "m"⟩, ⟨false, "", ""⟩,
        ⟨false, "", false, ""⟩, ⟨false, "", [], [], none⟩⟩).text = "" →
        r.text = sentinelBody) ∧
      ((chainState ⟨⟨false, "", true, bChars 120, "m"⟩, ⟨false, "", ""⟩,
        ⟨false, "", false, ""⟩, ⟨false, "", [], [], none⟩⟩).text ≠ "" →
        r.text = cleanText (chainState ⟨⟨false, "", true, bChars 120, "m"⟩,
          ⟨false, "", ""⟩, ⟨false, "", false, ""⟩,
          ⟨false, "", [], [], none⟩⟩).text) ∧
      ((chainState ⟨⟨false, "", true, bChars 120, "m"⟩, ⟨false, "", ""⟩,
        ⟨false, "", false, ""⟩, ⟨false, "", [], [], none⟩⟩).text = "" ∨
        readInstalls ⟨⟨false, "", true, bChars 120, "m"⟩, ⟨false, "", ""⟩,
          ⟨false, "", false, ""⟩, ⟨false, "", [], [], none⟩⟩ = true ∨
        100 < (pyStrip (chainState ⟨⟨false, "", true, bChars 120, "m"⟩,
          ⟨false, "", ""⟩, ⟨false, "", false, ""⟩,
          ⟨false, "", [], [], none⟩⟩).text).length) :=
  c4_amended_body_invariant "http://x"
    ⟨⟨false, "", true, bChars 120, "m"⟩, ⟨false, "", ""⟩,
      ⟨false, "", false, ""⟩, ⟨false, "", [], [], none⟩⟩ rfl

/-- A long body accepted by trafilatura that contains a UI-boilerplate
phrase. -/
def subscribeBody : String :=
  bChars 101 ++ "Subscribe end"

/-- C5 fails on the code: the UI-phrase stripping loop (main.py lines
181–202) runs for every truthy final text, with no check of which
provider produced it — here trafilatura (the first provider) wins, the
newline collapse and line filter leave its body untouched, and yet
`"Subscribe "` is removed from the returned body. -/
theorem c5_counterexample :
    url_to_text "http://x"
      ⟨⟨false, "", true, subscribeBody, "T"⟩, ⟨false, "", ""⟩,
        ⟨false, "", false, ""⟩, ⟨false, "", [], [], none⟩⟩ =
      .ok ⟨"T", bChars 101 ++ "end", "http://x"⟩ ∧
    bChars 101 ++ "end" ≠ subscribeBody ∧
    cleanLines (collapseNewlines subscribeBody) = subscribeBody := by
  refine ⟨by decide, by decide, by decide⟩

/-- C5 amended: the boilerplate-phrase removal is part of the single
cleaning pass applied to every accepted body, regardless of which
provider produced it — whenever the chain installed a nonempty text,
the returned body is that text after newline collapsing, line
filtering, and UI-phrase removal. -/
theorem c5_amended_phrases_always_stripped (url : String)
    (cfg : ExtractionConfig) (h : cfg.traf.raises = false)
    (hne : (chainState cfg).text ≠ "") :
    ∃ r, url_to_text url cfg = .ok r ∧
      r.text =
        removeUiPhrases (cleanLines (collapseNewlines
          (chainState cfg).text)) := by
  refine ⟨⟨(chainState cfg).title,
    if (chainState cfg).text != "" then cleanText (chainState cfg).text
    else sentinelBody, url⟩, by simp [url_to_text, h], ?_⟩
  simp [hne, cleanText]

/-- Witness for the amended C5 at a concrete input: trafilatura wins
and the phrase removal still applies. -/
theorem c5_amended_phrases_always_stripped_witness :
    ∃ r, url_to_text "http://x"
        ⟨⟨false, "", true, subscribeBody, "T"⟩, ⟨false, "", ""⟩,
          ⟨false, "", false, ""⟩, ⟨false, "", [], [], none⟩⟩ = .ok r ∧
      r.text = removeUiPhrases (cleanLines (collapseNewlines
        (chainState ⟨⟨false, "", true, subscribeBody, "T"⟩, ⟨false, "", ""⟩,
          ⟨false, "", false, ""⟩, ⟨false, "", [], [], none⟩⟩).text)) :=
  c5_amended_phrases_always_stripped "http://x"
    ⟨⟨false, "", true, subscribeBody, "T"⟩, ⟨false, "", ""⟩,
      ⟨false, "", false, ""⟩, ⟨false, "", [], [], none⟩⟩ rfl (by decide)

/-- C8: the line filter of the cleaning pass removes every line whose
trimmed content has length at most 1 or consists solely of digits and
non-word characters, and on the spec's example the cleaned body is
exactly the two real lines. -/
theorem c8_line_cleaning (ls : List String) (l : String)
    (h : (pyStrip l).length ≤ 1 ∨
      ((pyStrip l).data.all fun c => c.isDigit || !isPyWordChar c) = true) :
    l ∉ ls.filter keepLine ∧
    cleanText "Real line\n123\n!!\nAnother real line" =
      "Real line\nAnother real line" := by
  constructor
  · intro hmem
    have hk : keepLine l = true := List.of_mem_filter hmem
    simp only [keepLine, Bool.and_eq_true, decide_eq_true_eq,
      Bool.not_eq_true'] at hk
    rcases h with h | h
    · omega
    · rw [hk.2] at h
      exact Bool.false_ne_true h
  · decide

/-- Witness for C8 at a concrete input: the digits-only line `"123"` of
the example does not survive the filter. -/
theorem c8_line_cleaning_witness :
    "123" ∉ (["Real line", "123", "!!", "Another real line"].filter
      keepLine) ∧
    cleanText "Real line\n123\n!!\nAnother real line" =
      "Real line\nAnother real line" :=
  c8_line_cleaning ["Real line", "123", "!!", "Another real line"] "123"
    (by decide)
